import Mathlib

/-!
Verification development for the `FROST_CRACK_2D` model of
`frost-cracking-index.ipynb` (espin-2021/Climate).

The notebook's class is shallowly embedded here:

* numpy float arrays become `List ℚ` (for the depth/time axes) or functions
  `ℕ → ℕ → List ℚ` (for the rows × cols × num_nodes grids);
* numpy elementwise arithmetic becomes `List.map` / `List.zipWith`;
* `np.diff` becomes `npDiff`, slices `a[1:-1]` become `sliceInterior`, and the
  slice assignment `a[1:-1] = v` becomes `writeInterior`;
* Python exceptions (`AssertionError`, `IndexError`, `ZeroDivisionError`,
  `AttributeError`, `ValueError`) become explicit error values.  Because the
  class mutates `self` in place, a step that raises after some mutation is
  modelled by `StepOutcome.err`, which carries the state as mutated up to the
  point where the exception was raised.

Only the `use_dem=True` path of `__init__` is embedded: the `use_dem=False`
branch reads the local variable `dem` before assigning it and so always raises
`UnboundLocalError`, and every claim concerns the `use_dem=True` configuration
actually run by the notebook.  File/netCDF reading is out of the model: the
initializer receives the DEM raster as a function `ℕ → ℕ → ℚ` and the raw
time / surface-temperature records (already selected at the nearest lat/lon
cell, as `ts_file.variables` indexing does) as lists.
-/

/-- Indexing `nth l i` is `l[i]` with numpy's float default `0` out of range (indexing
beyond the list is never relied upon by the theorems; bounds are carried as
hypotheses). -/
def nth : List ℚ → ℕ → ℚ
  | [], _ => 0
  | a :: _, 0 => a
  | _ :: t, i + 1 => nth t i

/-- Embeds `np.diff`: `npDiff xs !! i = xs !! (i+1) - xs !! i`. -/
def npDiff (xs : List ℚ) : List ℚ :=
  List.zipWith (fun a b => b - a) xs xs.tail

/-- The slice `xs[1:-1]`. -/
def sliceInterior (xs : List ℚ) : List ℚ :=
  (xs.drop 1).take (xs.length - 2)

/-- The slice assignment `xs[1:-1] = upd` (numpy requires
`upd.length = xs.length - 2`; the embedding, like numpy, keeps the prefix
`xs[0]`, then `upd`, then the tail of `xs` past the written range). -/
def writeInterior (xs upd : List ℚ) : List ℚ :=
  xs.take 1 ++ upd ++ xs.drop (1 + upd.length)

/-- Embeds `np.mean` (numpy's mean of an empty array is NaN; the embedding's `0/0 = 0`
is never relied upon: every mean taken by the claims is of a nonempty list). -/
def mean (xs : List ℚ) : ℚ := xs.sum / (xs.length : ℚ)

/-- Embeds `np.linspace a b n` (endpoint included). -/
def linspace (a b : ℚ) (n : ℕ) : List ℚ :=
  if n = 1 then [a]
  else (List.range n).map (fun i : ℕ => a + (b - a) * (i : ℚ) / ((n : ℚ) - 1))

/-- Ceiling of a rational, clamped to ℕ, written with `Int.fdiv` so that it
kernel-evaluates on concrete inputs. -/
def ceilNatQ (q : ℚ) : ℕ :=
  (Int.fdiv (q.num + (q.den : ℤ) - 1) (q.den : ℤ)).toNat

/-- Embeds `np.arange start stop step` for `step > 0`: the
`ceilNatQ ((stop - start) / step)` values `start + i * step`. -/
def arangeQ (start stop step : ℚ) : List ℚ :=
  (List.range (ceilNatQ ((stop - start) / step))).map
    (fun i : ℕ => start + (i : ℚ) * step)

/-- Embeds `np.interp x xp fp` for increasing `xp`: clamped linear interpolation. -/
def interpPoint (x : ℚ) : List ℚ → List ℚ → ℚ
  | [], _ => 0
  | _, [] => 0
  | [_], f0 :: _ => f0
  | _ :: _ :: _, [f0] => f0
  | x0 :: x1 :: xs, f0 :: f1 :: fs =>
    if x ≤ x0 then f0
    else if x ≤ x1 then f0 + (f1 - f0) * (x - x0) / (x1 - x0)
    else interpPoint x (x1 :: xs) (f1 :: fs)

/-- Mean of a `rows × cols` raster given as a function. -/
def gridMean (g : ℕ → ℕ → ℚ) (rows cols : ℕ) : ℚ :=
  (((List.range rows).map
      (fun r => ((List.range cols).map (fun c => g r c)).sum)).sum) /
    ((rows * cols : ℕ) : ℚ)

/-- Embeds `dem_data[dem_data < -100] = np.nanmean(dem_data)`: sentinel elevations are
replaced by the raster mean (the embedding has no NaN, so `nanmean` is `mean`
over the raw raster). -/
def fillGaps (g : ℕ → ℕ → ℚ) (rows cols : ℕ) : ℕ → ℕ → ℚ :=
  fun r c => if g r c < -100 then gridMean g rows cols else g r c

/-- A rows × cols grid of depth columns (`self.temp`, `self.frostcrackA`,
`self.frostcrackHR`). -/
def GridQ : Type := ℕ → ℕ → List ℚ

/-- Writing one column of a grid in place (`a[x, y, :] = v`). -/
def updGrid (g : GridQ) (x y : ℕ) (v : List ℚ) : GridQ :=
  fun r c => if r = x ∧ c = y then v else g r c

/-- The mutable state of a `FROST_CRACK_2D` instance: every `self.*` field the
`use_dem=True` initializer assigns (the landlab grid object and the
`time.units` string are omitted; `x`/`y` do not exist until the first
`run_one_step` call, hence `Option`). -/
structure FCState where
  grid_rows : ℕ
  grid_cols : ℕ
  elevation : ℕ → ℕ → ℚ
  T_ele : ℚ
  Ts_org : List ℚ
  t_org_start : ℚ
  Ts : List ℚ
  time : List ℚ
  dz : ℚ
  timestep_duration_should : ℚ
  timestep_duration_is : ℚ
  temp_lapse_rate : ℚ
  Ts_ini : ℚ
  Ts0_ele : ℕ → ℕ → List ℚ
  depth : List ℚ
  temp : GridQ
  frostcrackA : GridQ
  frostcrackHR : GridQ
  geotherm : ℚ
  thermal_diffusivity : ℚ
  num_nodes : ℕ
  current_time : ℚ
  current_timestep : ℕ
  max_act_layer_depth : ℚ
  x : Option ℕ
  y : Option ℕ

/-- The inputs of `__init__` after file I/O: the DEM raster and its shape, the
raw time record (days) and raw surface-temperature record (Kelvin) at the
selected cell, and the scalar configuration parameters. -/
structure InitInput where
  dem_data : ℕ → ℕ → ℚ
  grid_rows : ℕ
  grid_cols : ℕ
  t_raw : List ℚ
  ts_raw : List ℚ
  temp_lapse_rate : ℚ
  thermal_diffusivity : ℚ
  profile_depth : ℚ
  geotherm : ℚ
  num_nodes : ℕ

/-- The Python exceptions `__init__` can raise, in the order its statements
can raise them.  `stabilityViolation` is the `AssertionError` of
`assert self.timestep_duration_should > self.timestep_duration_is`. -/
inductive InitError where
  | emptyTimeRecord       -- IndexError: `t[0]` on an empty time record
  | interpLengthMismatch  -- ValueError from `np.interp` when `len(t) != len(Ts_org)`
  | dzDivisionByZero      -- ZeroDivisionError: `profile_depth / (num_nodes - 1)` at `num_nodes = 1`
  | timeStepIndexError    -- IndexError: `self.time[1]` when the resampled series has < 2 samples
  | stabilityViolation    -- AssertionError: von-Neumann stability assert
  deriving DecidableEq, Repr

/-- Exceptions raised by the methods after construction. `alreadyCompleted` is
the IndexError of `self.Ts[self.current_timestep]` once the timestep has
reached the series length (the terminal-state failure); `tempIndexError` is
the IndexError of `self.temp[x,y,0] = self.Ts_ini` when the active depth
column is empty (`num_nodes = 0`); `maskIndexError` is the IndexError of
boolean-mask indexing when the mask and array shapes disagree;
`attributeError` is `self.dem` in `interp_Ts`, which the `use_dem=True`
initializer never assigns. -/
inductive StepError where
  | alreadyCompleted
  | tempIndexError
  | maskIndexError
  | attributeError
  deriving DecidableEq, Repr

/-- Outcome of a mutating method call: `ok` on normal return, `err` when a
Python exception is raised — carrying the state as mutated in place up to the
raise point. -/
inductive StepOutcome where
  | ok (s : FCState)
  | err (e : StepError) (s : FCState)

/-- The state an exception-or-not call leaves behind. -/
def stateOf : StepOutcome → FCState
  | .ok s => s
  | .err _ s => s

/-- Field `self.Ts_org = ts[...] - 273.15`. -/
def TsOrgOf (inp : InitInput) : List ℚ :=
  inp.ts_raw.map (fun v => v - 273.15)

/-- Embeds `t = (t - t[0]) * 24 * 60 * 60`: raw times in seconds from the start. -/
def tsecOf (inp : InitInput) : List ℚ :=
  inp.t_raw.map (fun v => (v - inp.t_raw.headD 0) * (24 * 60 * 60))

/-- Embeds `tnew = np.arange(0, t[-1], 3600)`: the hourly resampled time axis. -/
def tnewOf (inp : InitInput) : List ℚ :=
  arangeQ 0 ((tsecOf inp).getLastD 0) 3600

/-- Embeds `Ts_new = np.interp(tnew, t, Ts_org)`: the hourly resampled forcing. -/
def TsOf (inp : InitInput) : List ℚ :=
  (tnewOf inp).map (fun v => interpPoint v (tsecOf inp) (TsOrgOf inp))

/-- Field `self.dz = profile_depth / (num_nodes - 1)`. -/
def dzOf (inp : InitInput) : ℚ :=
  inp.profile_depth / ((inp.num_nodes : ℚ) - 1)

/-- Field `self.timestep_duration_should = dz * dz / (2 * thermal_diffusivity)`:
the von-Neumann maximum stable step. -/
def dtStableOf (inp : InitInput) : ℚ :=
  dzOf inp * dzOf inp / (2 * inp.thermal_diffusivity)

/-- The gap-filled DEM (`self.elevation`). -/
def elevationOf (inp : InitInput) : ℕ → ℕ → ℚ :=
  fillGaps inp.dem_data inp.grid_rows inp.grid_cols

/-- Field `self.T_ele = np.mean(dem_data)` (after gap filling). -/
def TeleOf (inp : InitInput) : ℚ :=
  gridMean (elevationOf inp) inp.grid_rows inp.grid_cols

/-- Field `self.depth = np.linspace(0, profile_depth, num_nodes)`. -/
def depthOf (inp : InitInput) : List ℚ :=
  linspace 0 inp.profile_depth inp.num_nodes

/-- The lapse-rate-corrected surface estimate of one grid cell:
`Ts_ini + temp_lapse_rate * (elevation - T_ele)` with
`Ts_ini = np.mean(self.Ts)`. -/
def surfaceEstimateOf (inp : InitInput) (r c : ℕ) : ℚ :=
  mean (TsOf inp) + inp.temp_lapse_rate * (elevationOf inp r c - TeleOf inp)

/-- Field `self.timestep_duration_is = self.time[1] - self.time[0]`: the
uniform sampling interval of the resampled forcing series. -/
def dtForcingOf (inp : InitInput) : ℚ :=
  nth (tnewOf inp) 1 - nth (tnewOf inp) 0

/-- The state `__init__` returns when every check passes (`dtf` is
`time[1] - time[0]`). -/
def mkState (inp : InitInput) (dtf : ℚ) : FCState where
  grid_rows := inp.grid_rows
  grid_cols := inp.grid_cols
  elevation := elevationOf inp
  T_ele := TeleOf inp
  Ts_org := TsOrgOf inp
  t_org_start := inp.t_raw.headD 0
  Ts := TsOf inp
  time := tnewOf inp
  dz := dzOf inp
  timestep_duration_should := dtStableOf inp
  timestep_duration_is := dtf
  temp_lapse_rate := inp.temp_lapse_rate
  Ts_ini := mean (TsOf inp)
  Ts0_ele := fun r c => List.replicate inp.num_nodes (surfaceEstimateOf inp r c)
  depth := depthOf inp
  temp := fun r c =>
    (depthOf inp).map (fun d => surfaceEstimateOf inp r c + inp.geotherm * d)
  frostcrackA := fun _ _ => List.replicate inp.num_nodes 0
  frostcrackHR := fun _ _ => List.replicate inp.num_nodes 0
  geotherm := inp.geotherm
  thermal_diffusivity := inp.thermal_diffusivity
  num_nodes := inp.num_nodes
  current_time := 0
  current_timestep := 0
  max_act_layer_depth := 0
  x := none
  y := none

/-- Embeds `FROST_CRACK_2D.__init__` on the `use_dem=True` path, with the failure
points in the order the statements execute: `t[0]` on an empty record, the
`np.interp` length check, the `dz` division at `num_nodes = 1`, the
`time[1] - time[0]` lookup on a too-short resampled axis, and finally the
von-Neumann stability assert. -/
def FROST_CRACK_2D_init (inp : InitInput) : Except InitError FCState :=
  if inp.t_raw = [] then .error .emptyTimeRecord
  else if inp.t_raw.length = inp.ts_raw.length then
    if inp.num_nodes = 1 then .error .dzDivisionByZero
    else if 2 ≤ (tnewOf inp).length then
      if dtStableOf inp > dtForcingOf inp then .ok (mkState inp (dtForcingOf inp))
      else .error .stabilityViolation
    else .error .timeStepIndexError
  else .error .interpLengthMismatch

/-- The first-step special case of `run_one_step`: at `current_timestep == 0`
the active column is overwritten with
`np.mean(self.Ts_org) + self.geotherm * self.depth`. -/
def overwrittenTemp (s : FCState) : GridQ :=
  if s.current_timestep = 0 then
    updGrid s.temp 500 400 (s.depth.map (fun d => mean s.Ts_org + s.geotherm * d))
  else s.temp

/-- The state after the conditional first-step overwrite (only `self.temp` can
change). -/
def initialOverwrite (s : FCState) : FCState := { s with temp := overwrittenTemp s }

/-- Lines 349–353 of the notebook source on one depth column: overwrite the
surface sample with the forcing value, form the face fluxes
`q = -thermal_diffusivity * np.diff(temp) / dz`, and write
`temp[1:-1] -= dtf * np.diff(q) / dz`. -/
def stepColumn (kappa dz dtf f : ℚ) (temp : List ℚ) : List ℚ :=
  let t := temp.set 0 f
  let q := (npDiff t).map (fun d => -kappa * d / dz)
  let upd := List.zipWith (fun a b => a - dtf * b / dz) (sliceInterior t) (npDiff q)
  writeInterior t upd

/-- Embeds `self.frostcrackA[x,y,:][cond1 & cond2] += 1/(3600*24*365)`: add one
second-in-years to every sample whose temperature lies strictly inside
`(-8, -3)`. -/
def frostUpdate (tempCol fcCol : List ℚ) : List ℚ :=
  List.zipWith
    (fun t f => if -8 < t ∧ t < -3 then f + 1 / (3600 * 24 * 365) else f)
    tempCol fcCol

/-- Embeds `FROST_CRACK_2D.run_one_step`, mutating only the hard-coded cell
`(x, y) = (500, 400)`.  Statement order follows the source: the
`current_timestep == 0` overwrite, the forcing lookup
`self.Ts[self.current_timestep]` (IndexError once the series is exhausted),
the `self.Ts_ini` assignment, the surface overwrite `self.temp[x,y,0] =
self.Ts_ini` (IndexError when the active column is empty, i.e.
`num_nodes = 0` — at that point `Ts_ini` is already assigned but the clock
and timestep are not advanced), the diffusion update, the clock/timestep
advance, then the frost-window mask (IndexError if the mask and the frost
column disagree in shape) and the `self.x`/`self.y` assignment. -/
def stepForcing (s : FCState) (h : s.current_timestep < s.Ts.length) : ℚ :=
  s.Ts.get ⟨s.current_timestep, h⟩

/-- The new active column produced by the diffusion lines of `run_one_step`,
applied to the (possibly first-step-overwritten) current column. -/
def steppedCol (s : FCState) (f : ℚ) : List ℚ :=
  stepColumn s.thermal_diffusivity s.dz s.timestep_duration_is f
    ((initialOverwrite s).temp 500 400)

/-- The state after the diffusion update and the clock/timestep advance of
`run_one_step`, just before the frost-window mask is applied. -/
def advancedState (s : FCState) (f : ℚ) : FCState :=
  { initialOverwrite s with
    Ts_ini := f,
    temp := updGrid (initialOverwrite s).temp 500 400 (steppedCol s f),
    current_time := s.current_time + s.timestep_duration_is,
    current_timestep := s.current_timestep + 1 }

/-- The state `run_one_step` returns on a normal step: the frost index of the
active cell is incremented on the samples inside the frost window, and
`self.x`, `self.y` are assigned. -/
def finalState (s : FCState) (f : ℚ) : FCState :=
  { advancedState s f with
    frostcrackA := updGrid s.frostcrackA 500 400
      (frostUpdate (steppedCol s f) (s.frostcrackA 500 400)),
    x := some 500,
    y := some 400 }

def run_one_step (s : FCState) : StepOutcome :=
  if h : s.current_timestep < s.Ts.length then
    let f := stepForcing s h
    if (initialOverwrite s).temp 500 400 = [] then
      .err .tempIndexError { initialOverwrite s with Ts_ini := f }
    else if (steppedCol s f).length = (s.frostcrackA 500 400).length then
      .ok (finalState s f)
    else .err .maskIndexError (advancedState s f)
  else .err .alreadyCompleted (initialOverwrite s)

/-- Method `interp_Ts` reads `self.dem`, which the `use_dem=True` initializer never
assigns: the call raises `AttributeError` before mutating anything. -/
def interp_Ts (s : FCState) : StepOutcome := .err .attributeError s

/-- Method `calculate_frost_cracking_depth_Anderson`: its loop body is `pass`. -/
def calculate_frost_cracking_depth_Anderson (s : FCState) : FCState := s

/-- Method `calculate_frost_cracking_depth_Hales_Roering`: its loop body is `pass`. -/
def calculate_frost_cracking_depth_Hales_Roering (s : FCState) : FCState := s

/-- The state `s` with the active node's temperature column replaced by
`col` (used to express that the constructed column at the active node is
never read by the stepping code). -/
def withActiveColumn (s : FCState) (col : List ℚ) : FCState :=
  { s with temp := updGrid s.temp 500 400 col }

/-- Iterating `run_one_step` `n` times, as the notebook's driver loop does
(continuing from whatever state a raising call left behind). -/
def stepN : ℕ → FCState → FCState
  | 0, s => s
  | n + 1, s => stepN n (stateOf (run_one_step s))

/-! ### Concrete inputs and states used to exercise the theorems -/

/-- A small well-formed initializer input: two raw samples two hours apart
(so the hourly resampled axis is `[0, 3600]`), constant `-5` °C, a flat
100 m DEM, and the notebook's default diffusivity/depth parameters with
three depth nodes. -/
def exInput : InitInput where
  dem_data := fun _ _ => 100
  grid_rows := 2
  grid_cols := 2
  t_raw := [0, 1/12]
  ts_raw := [273.15 - 5, 273.15 - 5]
  temp_lapse_rate := -6/1000
  thermal_diffusivity := 1/1000000
  profile_depth := 10
  geotherm := 1/40
  num_nodes := 3

/-- The same input with a diffusivity so large that the von-Neumann bound
`dz² / (2κ) = 25/2` falls below the 3600 s forcing step. -/
def exInputUnstable : InitInput :=
  { exInput with thermal_diffusivity := 1 }

/-- The same input with `num_nodes = 1` (Python: `ZeroDivisionError` at the
`dz` computation). -/
def exInputOneNode : InitInput :=
  { exInput with num_nodes := 1 }

/-- The same input with `num_nodes = 0 < 2` (no validation stops it). -/
def exInputZeroNodes : InitInput :=
  { exInput with num_nodes := 0 }

/-- The same input with `profile_depth = -10 ≤ 0` (no validation stops it). -/
def exInputNegDepth : InitInput :=
  { exInput with profile_depth := -10 }

/-- A small mid-run state: two depth samples at `-5` °C (inside the frost
window), a two-sample forcing series, `current_timestep = 1`. -/
def exState : FCState where
  grid_rows := 2
  grid_cols := 2
  elevation := fun _ _ => 100
  T_ele := 100
  Ts_org := [-5]
  t_org_start := 0
  Ts := [0, -5]
  time := [0, 3600]
  dz := 1
  timestep_duration_should := 500000
  timestep_duration_is := 3600
  temp_lapse_rate := 0
  Ts_ini := 0
  Ts0_ele := fun _ _ => [0, 0]
  depth := [0, 1]
  temp := fun _ _ => [-5, -5]
  frostcrackA := fun _ _ => [0, 0]
  frostcrackHR := fun _ _ => [0, 0]
  geotherm := 0
  thermal_diffusivity := 1/1000000
  num_nodes := 2
  current_time := 3600
  current_timestep := 1
  max_act_layer_depth := 0
  x := none
  y := none

/-- The same state at the terminal timestep (`current_timestep = len(Ts)`). -/
def exStateDone : FCState :=
  { exState with current_timestep := 2 }

/-- The same state before the first step (`current_timestep = 0`), with a
nonzero geothermal gradient so the first-step overwrite is visible. -/
def exStateFirst : FCState :=
  { exState with current_timestep := 0, geotherm := 1/10 }

/-! ### Index lemmas for the list operations -/

theorem nth_cons_succ (a : ℚ) (t : List ℚ) (i : ℕ) : nth (a :: t) (i + 1) = nth t i := rfl

theorem nth_eq_getElem (l : List ℚ) (i : ℕ) (h : i < l.length) : nth l i = l[i] := by
  induction l generalizing i with
  | nil => simp at h
  | cons a t ih =>
    cases i with
    | zero => rfl
    | succ j => simpa [nth] using ih j (by simpa using h)

theorem npDiff_cons₂ (a b : ℚ) (t : List ℚ) :
    npDiff (a :: b :: t) = (b - a) :: npDiff (b :: t) := rfl

theorem length_npDiff (xs : List ℚ) : (npDiff xs).length = xs.length - 1 := by
  simp [npDiff, List.length_zipWith]

theorem nth_npDiff (xs : List ℚ) (i : ℕ) (h : i + 1 < xs.length) :
    nth (npDiff xs) i = nth xs (i + 1) - nth xs i := by
  induction xs generalizing i with
  | nil => simp at h
  | cons a t ih =>
    cases t with
    | nil => simp at h
    | cons b u =>
      cases i with
      | zero => simp [npDiff_cons₂, nth]
      | succ j =>
        rw [npDiff_cons₂, nth_cons_succ, nth_cons_succ, nth_cons_succ]
        exact ih j (by simpa using h)

theorem nth_map (f : ℚ → ℚ) (xs : List ℚ) (i : ℕ) (h : i < xs.length) :
    nth (xs.map f) i = f (nth xs i) := by
  induction xs generalizing i with
  | nil => simp at h
  | cons a t ih =>
    cases i with
    | zero => rfl
    | succ j => simpa [nth] using ih j (by simpa using h)

theorem nth_zipWith (f : ℚ → ℚ → ℚ) (xs ys : List ℚ) (i : ℕ)
    (hx : i < xs.length) (hy : i < ys.length) :
    nth (List.zipWith f xs ys) i = f (nth xs i) (nth ys i) := by
  induction xs generalizing ys i with
  | nil => simp at hx
  | cons a t ih =>
    cases ys with
    | nil => simp at hy
    | cons b u =>
      cases i with
      | zero => rfl
      | succ j =>
        simpa [nth] using ih u j (by simpa using hx) (by simpa using hy)

theorem nth_take (xs : List ℚ) (n i : ℕ) (h : i < n) :
    nth (xs.take n) i = nth xs i := by
  induction xs generalizing n i with
  | nil => simp [nth]
  | cons a t ih =>
    cases n with
    | zero => omega
    | succ m =>
      cases i with
      | zero => rfl
      | succ j => simpa [nth] using ih m j (by omega)

theorem nth_drop (xs : List ℚ) (n i : ℕ) : nth (xs.drop n) i = nth xs (n + i) := by
  induction xs generalizing n with
  | nil => simp [nth]
  | cons a t ih =>
    cases n with
    | zero => simp
    | succ m =>
      rw [List.drop_succ_cons, ih m, show m + 1 + i = (m + i) + 1 by omega, nth_cons_succ]

theorem nth_append_left (xs ys : List ℚ) (i : ℕ) (h : i < xs.length) :
    nth (xs ++ ys) i = nth xs i := by
  induction xs generalizing i with
  | nil => simp at h
  | cons a t ih =>
    cases i with
    | zero => rfl
    | succ j => simpa [nth] using ih j (by simpa using h)

theorem nth_append_right (xs ys : List ℚ) (j : ℕ) :
    nth (xs ++ ys) (xs.length + j) = nth ys j := by
  induction xs with
  | nil => simp
  | cons a t ih =>
    simpa [nth, show t.length + 1 + j = (t.length + j) + 1 by omega] using ih

theorem nth_replicate (n i : ℕ) : nth (List.replicate n (0 : ℚ)) i = 0 := by
  induction n generalizing i with
  | zero => simp [nth]
  | succ m ih =>
    cases i with
    | zero => rfl
    | succ j => simpa [List.replicate_succ, nth] using ih j

theorem set0_nil (f : ℚ) : (([] : List ℚ).set 0 f) = [] := rfl

theorem set0_cons (a f : ℚ) (t : List ℚ) : ((a :: t).set 0 f) = f :: t := rfl

theorem nth_set0_succ (xs : List ℚ) (f : ℚ) (j : ℕ) :
    nth (xs.set 0 f) (j + 1) = nth xs (j + 1) := by
  cases xs with
  | nil => rfl
  | cons a t => rfl

theorem length_sliceInterior (xs : List ℚ) :
    (sliceInterior xs).length = xs.length - 2 := by
  simp [sliceInterior]
  omega

theorem nth_sliceInterior (xs : List ℚ) (j : ℕ) (h : j < xs.length - 2) :
    nth (sliceInterior xs) j = nth xs (j + 1) := by
  rw [sliceInterior, nth_take _ _ _ h, nth_drop, Nat.add_comm]

theorem writeInterior_cons (a : ℚ) (t upd : List ℚ) :
    writeInterior (a :: t) upd = a :: (upd ++ t.drop upd.length) := by
  simp [writeInterior, Nat.add_comm 1 upd.length]

theorem length_writeInterior (a : ℚ) (t upd : List ℚ) (h : upd.length ≤ t.length) :
    (writeInterior (a :: t) upd).length = t.length + 1 := by
  rw [writeInterior_cons]
  simp
  omega

theorem nth_writeInterior_zero (a : ℚ) (t upd : List ℚ) :
    nth (writeInterior (a :: t) upd) 0 = a := by
  rw [writeInterior_cons]; rfl

theorem nth_writeInterior_mid (a : ℚ) (t upd : List ℚ) (j : ℕ) (hj : j < upd.length) :
    nth (writeInterior (a :: t) upd) (j + 1) = nth upd j := by
  rw [writeInterior_cons, nth_cons_succ, nth_append_left _ _ _ hj]

theorem nth_writeInterior_last (a : ℚ) (t upd : List ℚ) :
    nth (writeInterior (a :: t) upd) (upd.length + 1) = nth t upd.length := by
  rw [writeInterior_cons, nth_cons_succ]
  have h := nth_append_right upd (t.drop upd.length) 0
  rw [nth_drop] at h
  simpa using h

/-! ### Characterization of one diffusion update on a column -/

theorem length_stepColumn (kappa dz dtf f : ℚ) (temp : List ℚ) :
    (stepColumn kappa dz dtf f temp).length = temp.length := by
  cases temp with
  | nil => rfl
  | cons a t =>
    simp only [stepColumn, set0_cons]
    rw [length_writeInterior]
    · simp
    · simp [List.length_zipWith, length_sliceInterior, length_npDiff]

theorem stepColumn_nth_zero (kappa dz dtf f a : ℚ) (t : List ℚ) :
    nth (stepColumn kappa dz dtf f (a :: t)) 0 = f := by
  simp only [stepColumn, set0_cons]
  exact nth_writeInterior_zero f t _

theorem stepColumn_nth_last (kappa dz dtf f : ℚ) (temp : List ℚ) (h : 2 ≤ temp.length) :
    nth (stepColumn kappa dz dtf f temp) (temp.length - 1) = nth temp (temp.length - 1) := by
  cases temp with
  | nil => simp at h
  | cons a t =>
    have ht : 1 ≤ t.length := by simpa using h
    simp only [stepColumn, set0_cons]
    have hul : (List.zipWith (fun a b => a - dtf * b / dz)
        (sliceInterior (f :: t))
        (npDiff ((npDiff (f :: t)).map (fun d => -kappa * d / dz)))).length
        = t.length - 1 := by
      simp [List.length_zipWith, length_sliceInterior, length_npDiff]
    have hL : (a :: t).length - 1 = (t.length - 1) + 1 := by simp; omega
    rw [hL]
    have := nth_writeInterior_last f t (List.zipWith (fun a b => a - dtf * b / dz)
        (sliceInterior (f :: t))
        (npDiff ((npDiff (f :: t)).map (fun d => -kappa * d / dz))))
    rw [hul] at this
    rw [this, nth_cons_succ]

theorem stepColumn_nth_mid (kappa dz dtf f : ℚ) (temp : List ℚ) (i : ℕ)
    (h1 : 1 ≤ i) (h2 : i ≤ temp.length - 2) :
    nth (stepColumn kappa dz dtf f temp) i =
      nth (temp.set 0 f) i -
        dtf * ((-kappa * (nth (temp.set 0 f) (i + 1) - nth (temp.set 0 f) i) / dz) -
               (-kappa * (nth (temp.set 0 f) i - nth (temp.set 0 f) (i - 1)) / dz)) / dz := by
  cases temp with
  | nil => simp at h2; omega
  | cons a t =>
    have hN : 3 ≤ (a :: t).length := by simp at h2 ⊢; omega
    set tset : List ℚ := (a :: t).set 0 f with htset
    have htset' : tset = f :: t := set0_cons a f t
    have hlt : tset.length = t.length + 1 := by rw [htset']; simp
    set qL : List ℚ := (npDiff tset).map (fun d => -kappa * d / dz) with hqL
    have hlq : qL.length = t.length := by
      rw [hqL]; simp [length_npDiff, hlt]
    set upd : List ℚ := List.zipWith (fun a b => a - dtf * b / dz)
      (sliceInterior tset) (npDiff qL) with hupd
    have hlu : upd.length = t.length - 1 := by
      rw [hupd]; simp [List.length_zipWith, length_sliceInterior, length_npDiff, hlt, hlq]
    have hres : stepColumn kappa dz dtf f (a :: t) = writeInterior tset upd := rfl
    obtain ⟨j, hj⟩ : ∃ j, i = j + 1 := ⟨i - 1, by omega⟩
    have hjlt : j < upd.length := by
      rw [hlu]; simp at h2; omega
    have hq : ∀ k, k + 1 < tset.length →
        nth qL k = -kappa * (nth tset (k + 1) - nth tset k) / dz := by
      intro k hk
      rw [hqL, nth_map _ _ _ (by rw [length_npDiff]; omega), nth_npDiff _ _ hk]
    rw [hres, htset', hj, nth_writeInterior_mid _ _ _ _ hjlt,
      hupd, nth_zipWith _ _ _ _ (by rw [length_sliceInterior, hlt]; omega)
        (by rw [length_npDiff, hlq]; omega),
      nth_sliceInterior _ _ (by rw [hlt]; omega),
      nth_npDiff _ _ (by rw [hlq]; simp at h2; omega),
      hq j (by rw [hlt]; omega), hq (j + 1) (by rw [hlt]; simp at h2; omega),
      ← htset']
    have : j + 1 - 1 = j := by omega
    rw [this]

/-! ### Inversion and projection lemmas for the embedded methods -/

theorem updGrid_same (g : GridQ) (x y : ℕ) (v : List ℚ) : updGrid g x y v x y = v := by
  simp [updGrid]

theorem updGrid_other (g : GridQ) (x y : ℕ) (v : List ℚ) (r c : ℕ)
    (h : ¬ (r = x ∧ c = y)) : updGrid g x y v r c = g r c := by
  simp only [updGrid, if_neg h]

theorem length_frostUpdate (tc fc : List ℚ) :
    (frostUpdate tc fc).length = min tc.length fc.length := by
  simp [frostUpdate, List.length_zipWith]

theorem nth_frostUpdate (tc fc : List ℚ) (i : ℕ) (h1 : i < tc.length) (h2 : i < fc.length) :
    nth (frostUpdate tc fc) i =
      if -8 < nth tc i ∧ nth tc i < -3 then nth fc i + 1 / (3600 * 24 * 365)
      else nth fc i := by
  exact nth_zipWith _ tc fc i h1 h2

theorem run_one_step_terminal (s : FCState) (h : ¬ s.current_timestep < s.Ts.length) :
    run_one_step s = .err .alreadyCompleted (initialOverwrite s) := by
  unfold run_one_step
  rw [dif_neg h]

theorem run_one_step_eq_emptycol (s : FCState) (h : s.current_timestep < s.Ts.length)
    (hcol : (initialOverwrite s).temp 500 400 = []) :
    run_one_step s =
      .err .tempIndexError { initialOverwrite s with Ts_ini := stepForcing s h } := by
  unfold run_one_step
  rw [dif_pos h]
  simp only []
  rw [if_pos hcol]

theorem run_one_step_eq_ok (s : FCState) (h : s.current_timestep < s.Ts.length)
    (hcol : (initialOverwrite s).temp 500 400 ≠ [])
    (hl : (steppedCol s (stepForcing s h)).length = (s.frostcrackA 500 400).length) :
    run_one_step s = .ok (finalState s (stepForcing s h)) := by
  unfold run_one_step
  rw [dif_pos h]
  simp only []
  rw [if_neg hcol, if_pos hl]

theorem run_one_step_eq_mask (s : FCState) (h : s.current_timestep < s.Ts.length)
    (hcol : (initialOverwrite s).temp 500 400 ≠ [])
    (hl : ¬ (steppedCol s (stepForcing s h)).length = (s.frostcrackA 500 400).length) :
    run_one_step s = .err .maskIndexError (advancedState s (stepForcing s h)) := by
  unfold run_one_step
  rw [dif_pos h]
  simp only []
  rw [if_neg hcol, if_neg hl]

theorem run_one_step_ok_inv (s s' : FCState) (hok : run_one_step s = .ok s') :
    ∃ h : s.current_timestep < s.Ts.length,
      (initialOverwrite s).temp 500 400 ≠ [] ∧
      (steppedCol s (stepForcing s h)).length = (s.frostcrackA 500 400).length ∧
      s' = finalState s (stepForcing s h) := by
  by_cases h : s.current_timestep < s.Ts.length
  · by_cases hcol : (initialOverwrite s).temp 500 400 = []
    · rw [run_one_step_eq_emptycol s h hcol] at hok
      exact absurd hok (by simp)
    · by_cases hl : (steppedCol s (stepForcing s h)).length = (s.frostcrackA 500 400).length
      · rw [run_one_step_eq_ok s h hcol hl] at hok
        exact ⟨h, hcol, hl, by injection hok.symm⟩
      · rw [run_one_step_eq_mask s h hcol hl] at hok
        exact absurd hok (by simp)
  · rw [run_one_step_terminal s h] at hok
    exact absurd hok (by simp)

theorem init_ok_inv (inp : InitInput) (s : FCState)
    (h : FROST_CRACK_2D_init inp = .ok s) :
    inp.t_raw ≠ [] ∧ inp.t_raw.length = inp.ts_raw.length ∧ inp.num_nodes ≠ 1 ∧
      2 ≤ (tnewOf inp).length ∧ dtStableOf inp > dtForcingOf inp ∧
      s = mkState inp (dtForcingOf inp) := by
  unfold FROST_CRACK_2D_init at h
  split_ifs at h with h1 h2 h3 h4 h5
  · exact ⟨h1, h2, h3, h4, h5, by injection h.symm⟩

theorem nth_overflow (l : List ℚ) (i : ℕ) (h : l.length ≤ i) : nth l i = 0 := by
  induction l generalizing i with
  | nil => cases i <;> rfl
  | cons a t ih =>
    cases i with
    | zero => simp at h
    | succ j => exact (nth_cons_succ a t j).trans (ih j (by simpa using h))

theorem length_linspace (a b : ℚ) (n : ℕ) : (linspace a b n).length = n := by
  unfold linspace
  split_ifs with h
  · simp [h]
  · rw [List.length_map, List.length_range]

theorem nth_linspace (a b : ℚ) (n i : ℕ) (hn : n ≠ 1) (hi : i < n) :
    nth (linspace a b n) i = a + (b - a) * (i : ℚ) / ((n : ℚ) - 1) := by
  unfold linspace
  rw [if_neg hn]
  rw [nth_eq_getElem _ _ (by rw [List.length_map, List.length_range]; exact hi)]
  rw [List.getElem_map, List.getElem_range]

theorem initialOverwrite_of_ne_zero (s : FCState) (h : s.current_timestep ≠ 0) :
    initialOverwrite s = s := by
  unfold initialOverwrite overwrittenTemp
  rw [if_neg h]

theorem overwrittenTemp_other (s : FCState) (r c : ℕ) (h : ¬ (r = 500 ∧ c = 400)) :
    overwrittenTemp s r c = s.temp r c := by
  unfold overwrittenTemp
  split_ifs with h0
  · exact updGrid_other _ _ _ _ _ _ h
  · rfl

theorem overwrittenTemp_active_zero (s : FCState) (h : s.current_timestep = 0) :
    overwrittenTemp s 500 400 = s.depth.map (fun d => mean s.Ts_org + s.geotherm * d) := by
  unfold overwrittenTemp
  rw [if_pos h]
  exact updGrid_same _ _ _ _

theorem finalState_temp_active (s : FCState) (f : ℚ) :
    (finalState s f).temp 500 400 = steppedCol s f := by
  show updGrid (initialOverwrite s).temp 500 400 (steppedCol s f) 500 400 = steppedCol s f
  exact updGrid_same _ _ _ _

theorem finalState_frost_active (s : FCState) (f : ℚ) :
    (finalState s f).frostcrackA 500 400 =
      frostUpdate (steppedCol s f) (s.frostcrackA 500 400) := by
  show updGrid s.frostcrackA 500 400 (frostUpdate (steppedCol s f) (s.frostcrackA 500 400))
      500 400 = _
  exact updGrid_same _ _ _ _

theorem finalState_temp_other (s : FCState) (f : ℚ) (r c : ℕ)
    (h : ¬ (r = 500 ∧ c = 400)) :
    (finalState s f).temp r c = s.temp r c := by
  show updGrid (initialOverwrite s).temp 500 400 (steppedCol s f) r c = s.temp r c
  rw [updGrid_other _ _ _ _ _ _ h]
  exact overwrittenTemp_other s r c h

theorem finalState_frost_other (s : FCState) (f : ℚ) (r c : ℕ)
    (h : ¬ (r = 500 ∧ c = 400)) :
    (finalState s f).frostcrackA r c = s.frostcrackA r c := by
  show updGrid s.frostcrackA 500 400 (frostUpdate (steppedCol s f) (s.frostcrackA 500 400))
      r c = s.frostcrackA r c
  exact updGrid_other _ _ _ _ _ _ h

/-! ### The claims -/

/-- **C3**: one diffusion step first sets `temp[0]` to the forcing value, then
computes the face fluxes `q[i] = -thermal_diffusivity * (temp[i+1] - temp[i]) / dz`
for `i = 0..N-2`, then updates every interior sample `i = 1..N-2` to
`temp[i] - dt_forcing * (q[i] - q[i-1]) / dz`, and leaves the last sample
`temp[N-1]` exactly unchanged.  Part one is the index-wise characterization of
`stepColumn` (writing `temp.set 0 f` for the boundary-overwritten profile and
inlining `q`); part two says `run_one_step` applies exactly this update to the
active column. -/
theorem C3_diffusion_step :
    (∀ (kappa dz dtf f : ℚ) (temp : List ℚ), 2 ≤ temp.length →
      (stepColumn kappa dz dtf f temp).length = temp.length ∧
      nth (stepColumn kappa dz dtf f temp) 0 = f ∧
      (∀ i, 1 ≤ i → i ≤ temp.length - 2 →
        nth (stepColumn kappa dz dtf f temp) i =
          nth (temp.set 0 f) i -
            dtf * ((-kappa * (nth (temp.set 0 f) (i + 1) - nth (temp.set 0 f) i) / dz) -
                   (-kappa * (nth (temp.set 0 f) i - nth (temp.set 0 f) (i - 1)) / dz)) / dz) ∧
      nth (stepColumn kappa dz dtf f temp) (temp.length - 1) =
        nth temp (temp.length - 1)) ∧
    (∀ s s', run_one_step s = .ok s' →
      ∃ h : s.current_timestep < s.Ts.length,
        s'.temp 500 400 = stepColumn s.thermal_diffusivity s.dz s.timestep_duration_is
          (stepForcing s h) ((initialOverwrite s).temp 500 400)) := by
  constructor
  · intro kappa dz dtf f temp hN
    refine ⟨length_stepColumn kappa dz dtf f temp, ?_, ?_,
      stepColumn_nth_last kappa dz dtf f temp hN⟩
    · cases temp with
      | nil => simp at hN
      | cons a t => exact stepColumn_nth_zero kappa dz dtf f a t
    · intro i h1 h2
      exact stepColumn_nth_mid kappa dz dtf f temp i h1 h2
  · intro s s' hok
    obtain ⟨h, hcol, hl, rfl⟩ := run_one_step_ok_inv s s' hok
    exact ⟨h, finalState_temp_active s (stepForcing s h)⟩

/-- Witness for C3 on a concrete four-sample column. -/
theorem C3_diffusion_step_witness :
    (2 : ℕ) ≤ ([0, -10, -10, 0] : List ℚ).length ∧
    nth (stepColumn (1/1000000) 1 3600 (-5) [0, -10, -10, 0]) 0 = -5 :=
  ⟨by decide,
    (C3_diffusion_step.1 (1/1000000) 1 3600 (-5) [0, -10, -10, 0] (by decide)).2.1⟩

/-- **C4**: after any (successful) step, `temp[0]` of the stepped (active)
profile equals the forcing-series value at the then-current timestep exactly. -/
theorem C4_boundary_overwrite (s s' : FCState) (hok : run_one_step s = .ok s')
    (hne : (initialOverwrite s).temp 500 400 ≠ []) :
    ∃ h : s.current_timestep < s.Ts.length,
      0 < (s'.temp 500 400).length ∧
      nth (s'.temp 500 400) 0 = s.Ts.get ⟨s.current_timestep, h⟩ := by
  obtain ⟨h, hcol, hl, rfl⟩ := run_one_step_ok_inv s s' hok
  have hact : (finalState s (stepForcing s h)).temp 500 400 = steppedCol s (stepForcing s h) :=
    finalState_temp_active s (stepForcing s h)
  refine ⟨h, ?_, ?_⟩
  · rw [hact, steppedCol, length_stepColumn]
    exact List.length_pos.mpr hne
  · rw [hact]
    cases hcol : (initialOverwrite s).temp 500 400 with
    | nil => exact absurd hcol hne
    | cons a t =>
      rw [steppedCol, hcol]
      exact stepColumn_nth_zero _ _ _ _ a t

/-- Witness for C4 on the concrete state `exState`. -/
theorem C4_boundary_overwrite_witness :
    run_one_step exState = .ok (stateOf (run_one_step exState)) ∧
    (initialOverwrite exState).temp 500 400 ≠ [] ∧
    nth ((stateOf (run_one_step exState)).temp 500 400) 0 = -5 := by
  refine ⟨rfl, by decide, ?_⟩
  obtain ⟨h, _, hnth⟩ :=
    C4_boundary_overwrite exState (stateOf (run_one_step exState)) rfl (by decide)
  exact hnth.trans rfl

/-- **C1** (amended): a successful step increments the active cell's Anderson
frost index at sample `i` by exactly `1 / seconds_per_year` (one *step* worth
of `1/(3600*24*365)`, independent of `dt_forcing`) when the post-update
temperature at `i` lies strictly inside `(-8, -3)`, and by exactly `0`
otherwise.  The claim's increment `dt_forcing / seconds_per_year` is what the
counterexample refutes. -/
theorem C1_frost_increment (s s' : FCState) (hok : run_one_step s = .ok s') (i : ℕ)
    (hi : i < (s'.temp 500 400).length) (hfc : i < (s.frostcrackA 500 400).length) :
    nth (s'.frostcrackA 500 400) i =
      nth (s.frostcrackA 500 400) i +
        (if -8 < nth (s'.temp 500 400) i ∧ nth (s'.temp 500 400) i < -3 then
          1 / (3600 * 24 * 365) else 0) := by
  obtain ⟨h, hcol, hl, rfl⟩ := run_one_step_ok_inv s s' hok
  rw [finalState_temp_active] at hi ⊢
  rw [finalState_frost_active]
  rw [nth_frostUpdate _ _ _ hi hfc]
  split_ifs with hw
  · rfl
  · rw [add_zero]

/-- Witness for the amended C1 at the concrete state `exState`: the sample at
depth index 0 ends the step at `-5` °C (inside the window) and its index grows
by `1/(3600*24*365)`. -/
theorem C1_frost_increment_witness :
    run_one_step exState = .ok (stateOf (run_one_step exState)) ∧
    0 < ((stateOf (run_one_step exState)).temp 500 400).length ∧
    0 < (exState.frostcrackA 500 400).length ∧
    nth ((stateOf (run_one_step exState)).frostcrackA 500 400) 0 =
      nth (exState.frostcrackA 500 400) 0 +
        (if -8 < nth ((stateOf (run_one_step exState)).temp 500 400) 0 ∧
            nth ((stateOf (run_one_step exState)).temp 500 400) 0 < -3 then
          1 / (3600 * 24 * 365) else 0) :=
  ⟨rfl, by decide, by decide,
    C1_frost_increment exState (stateOf (run_one_step exState)) rfl 0 (by decide) (by decide)⟩

/-- **C1** (counterexample to the claim as stated): at `exState` the step
duration is `dt_forcing = 3600` s, the post-step temperature at sample 0 is
`-5` (strictly inside `(-8, -3)`), yet the frost index increases by
`1/(3600*24*365)`, not by `dt_forcing / (3600*24*365) = 1/8760`. -/
theorem C1_counterexample :
    ∃ s', run_one_step exState = .ok s' ∧
      exState.timestep_duration_is = 3600 ∧
      (-8 < nth (s'.temp 500 400) 0 ∧ nth (s'.temp 500 400) 0 < -3) ∧
      nth (s'.frostcrackA 500 400) 0 - nth (exState.frostcrackA 500 400) 0 ≠
        exState.timestep_duration_is / (3600 * 24 * 365) :=
  ⟨stateOf (run_one_step exState), rfl, by decide, by decide, by with_unfolding_all decide⟩

/-- **C2**: with the earlier `__init__` statements succeeding (nonempty raw
time record, matching record lengths, `num_nodes ≠ 1`, at least two resampled
samples), the von-Neumann gate `dt_stable = dz²/(2κ) > dt_forcing` decides
construction: `dt_stable ≤ dt_forcing` fails with `StabilityViolation` (and no
state is ever produced, so zero diffusion steps can be performed), while
`dt_stable > dt_forcing` passes the check and construction succeeds. -/
theorem C2_stability_gate (inp : InitInput)
    (h1 : inp.t_raw ≠ []) (h2 : inp.t_raw.length = inp.ts_raw.length)
    (h3 : inp.num_nodes ≠ 1) (h4 : 2 ≤ (tnewOf inp).length) :
    (dtStableOf inp ≤ dtForcingOf inp →
      FROST_CRACK_2D_init inp = .error .stabilityViolation ∧
      ∀ s, FROST_CRACK_2D_init inp ≠ .ok s) ∧
    (dtStableOf inp > dtForcingOf inp →
      ∃ s, FROST_CRACK_2D_init inp = .ok s) := by
  unfold FROST_CRACK_2D_init
  rw [if_neg h1, if_pos h2, if_neg h3, if_pos h4]
  constructor
  · intro hle
    rw [if_neg (not_lt.mpr hle)]
    exact ⟨rfl, fun s h => Except.noConfusion h⟩
  · intro hgt
    rw [if_pos hgt]
    exact ⟨mkState inp (dtForcingOf inp), rfl⟩

/-- Witness for C2: `exInputUnstable` (κ = 1, `dt_stable = 25/2 ≤ 3600`) is
rejected with `StabilityViolation`; `exInput` (κ = 10⁻⁶) constructs. -/
theorem C2_stability_gate_witness :
    exInputUnstable.t_raw ≠ [] ∧
    exInputUnstable.t_raw.length = exInputUnstable.ts_raw.length ∧
    exInputUnstable.num_nodes ≠ 1 ∧
    2 ≤ (tnewOf exInputUnstable).length ∧
    dtStableOf exInputUnstable ≤ dtForcingOf exInputUnstable ∧
    FROST_CRACK_2D_init exInputUnstable = .error .stabilityViolation ∧
    (∃ s, FROST_CRACK_2D_init exInput = .ok s) := by
  refine ⟨by decide, by decide, by decide, by with_unfolding_all decide,
    by with_unfolding_all decide, ?_, ?_⟩
  · exact ((C2_stability_gate exInputUnstable (by decide) (by decide) (by decide)
      (by with_unfolding_all decide)).1 (by with_unfolding_all decide)).1
  · exact (C2_stability_gate exInput (by decide) (by decide) (by decide)
      (by with_unfolding_all decide)).2 (by with_unfolding_all decide)

/-- **C5**: a successful construction gives every grid node the initial
profile `temp[i] = (mean(Ts) + lapse_rate * (elevation - T_ele)) + geotherm *
depth[i]`, with `len(temp) = len(depth) = num_nodes`, `depth[i] =
profile_depth * i / (num_nodes - 1)` (so depth runs from 0 to
`profile_depth`), and uniform spacing `depth[i+1] - depth[i] = dz =
profile_depth / (num_nodes - 1)`. -/
theorem C5_initial_profile (inp : InitInput) (s : FCState)
    (hok : FROST_CRACK_2D_init inp = .ok s) (r c : ℕ) :
    (s.temp r c).length = inp.num_nodes ∧
    s.depth.length = inp.num_nodes ∧
    s.dz = inp.profile_depth / ((inp.num_nodes : ℚ) - 1) ∧
    (∀ i, i < inp.num_nodes →
      nth (s.temp r c) i =
        (mean s.Ts + inp.temp_lapse_rate * (s.elevation r c - s.T_ele)) +
          inp.geotherm * nth s.depth i) ∧
    (∀ i, i < inp.num_nodes →
      nth s.depth i = inp.profile_depth * (i : ℚ) / ((inp.num_nodes : ℚ) - 1)) ∧
    (∀ i, i + 1 < inp.num_nodes → nth s.depth (i + 1) - nth s.depth i = s.dz) := by
  obtain ⟨-, -, h3, -, -, rfl⟩ := init_ok_inv inp s hok
  refine ⟨?_, ?_, rfl, ?_, ?_, ?_⟩
  · show ((depthOf inp).map _).length = _
    rw [List.length_map, depthOf, length_linspace]
  · show (depthOf inp).length = _
    rw [depthOf, length_linspace]
  · intro i hi
    show nth ((depthOf inp).map _) i = _
    rw [nth_map _ _ _ (by rw [depthOf, length_linspace]; exact hi)]
    rfl
  · intro i hi
    show nth (linspace 0 inp.profile_depth inp.num_nodes) i = _
    rw [nth_linspace _ _ _ _ h3 hi, zero_add, sub_zero]
  · intro i hi
    show nth (linspace 0 inp.profile_depth inp.num_nodes) (i + 1) -
        nth (linspace 0 inp.profile_depth inp.num_nodes) i = dzOf inp
    rw [nth_linspace _ _ _ _ h3 hi, nth_linspace _ _ _ _ h3 (by omega),
      zero_add, zero_add, sub_zero, div_sub_div_same, dzOf]
    congr 1
    push_cast
    ring

/-- Witness for C5 at `exInput`, sample `i = 1` of node `(0,0)`. -/
theorem C5_initial_profile_witness :
    FROST_CRACK_2D_init exInput = .ok (mkState exInput (dtForcingOf exInput)) ∧
    nth ((mkState exInput (dtForcingOf exInput)).temp 0 0) 1 =
      (mean (mkState exInput (dtForcingOf exInput)).Ts +
        exInput.temp_lapse_rate *
          ((mkState exInput (dtForcingOf exInput)).elevation 0 0 -
            (mkState exInput (dtForcingOf exInput)).T_ele)) +
        exInput.geotherm * nth (mkState exInput (dtForcingOf exInput)).depth 1 := by
  have hok : FROST_CRACK_2D_init exInput = .ok (mkState exInput (dtForcingOf exInput)) := by
    with_unfolding_all rfl
  exact ⟨hok, (C5_initial_profile exInput _ hok 0 0).2.2.2.1 1 (by decide)⟩

/-- **C6** (counterexample to the claim as stated): `exInputNegDepth` has
`profile_depth = -10 ≤ 0`, yet `__init__` completes successfully — no
`ConfigurationError` (or any other validation failure) occurs. -/
theorem C6_counterexample :
    exInputNegDepth.profile_depth ≤ 0 ∧
    ∃ s, FROST_CRACK_2D_init exInputNegDepth = .ok s :=
  ⟨by with_unfolding_all decide,
    ⟨mkState exInputNegDepth (dtForcingOf exInputNegDepth), by with_unfolding_all rfl⟩⟩

/-- **C6** (amended): `__init__` performs no `num_nodes`/`profile_depth`
validation at all.  `num_nodes = 1` fails, but only with the
`ZeroDivisionError` of `dz = profile_depth / (num_nodes - 1)`; `num_nodes = 0`
(< 2) and `profile_depth ≤ 0` configurations construct successfully, subject
only to the later stability assert. -/
theorem C6_no_validation :
    (∀ inp : InitInput, inp.t_raw ≠ [] → inp.t_raw.length = inp.ts_raw.length →
      inp.num_nodes = 1 → FROST_CRACK_2D_init inp = .error .dzDivisionByZero) ∧
    (exInputZeroNodes.num_nodes < 2 ∧
      ∃ s, FROST_CRACK_2D_init exInputZeroNodes = .ok s) ∧
    (exInputNegDepth.profile_depth ≤ 0 ∧
      ∃ s, FROST_CRACK_2D_init exInputNegDepth = .ok s) := by
  refine ⟨?_,
    ⟨by decide, ⟨mkState exInputZeroNodes (dtForcingOf exInputZeroNodes),
      by with_unfolding_all rfl⟩⟩,
    ⟨by with_unfolding_all decide, ⟨mkState exInputNegDepth (dtForcingOf exInputNegDepth),
      by with_unfolding_all rfl⟩⟩⟩
  intro inp hne hlen h1
  unfold FROST_CRACK_2D_init
  rw [if_neg hne, if_pos hlen, if_pos h1]

/-- Witness for the amended C6 at `exInputOneNode`. -/
theorem C6_no_validation_witness :
    exInputOneNode.t_raw ≠ [] ∧
    exInputOneNode.t_raw.length = exInputOneNode.ts_raw.length ∧
    exInputOneNode.num_nodes = 1 ∧
    FROST_CRACK_2D_init exInputOneNode = .error .dzDivisionByZero :=
  ⟨by decide, by decide, rfl,
    C6_no_validation.1 exInputOneNode (by decide) (by decide) rfl⟩

theorem advancedState_temp_active (s : FCState) (f : ℚ) :
    (advancedState s f).temp 500 400 = steppedCol s f := by
  show updGrid (initialOverwrite s).temp 500 400 (steppedCol s f) 500 400 = steppedCol s f
  exact updGrid_same _ _ _ _

theorem run_one_step_frost_le (s : FCState) (r c i : ℕ) :
    nth (s.frostcrackA r c) i ≤ nth ((stateOf (run_one_step s)).frostcrackA r c) i := by
  by_cases h : s.current_timestep < s.Ts.length
  · by_cases hcol : (initialOverwrite s).temp 500 400 = []
    · rw [run_one_step_eq_emptycol s h hcol]
      exact le_refl _
    by_cases hl : (steppedCol s (stepForcing s h)).length = (s.frostcrackA 500 400).length
    · rw [run_one_step_eq_ok s h hcol hl]
      show nth (s.frostcrackA r c) i ≤ nth ((finalState s (stepForcing s h)).frostcrackA r c) i
      by_cases hrc : r = 500 ∧ c = 400
      · obtain ⟨rfl, rfl⟩ := hrc
        rw [finalState_frost_active]
        by_cases hi : i < (s.frostcrackA 500 400).length
        · rw [nth_frostUpdate _ _ _ (by rw [hl]; exact hi) hi]
          split_ifs
          · have h1 : (0:ℚ) ≤ 1 / (3600 * 24 * 365) := by norm_num
            linarith
          · exact le_refl _
        · rw [nth_overflow _ _ (le_of_not_lt hi),
            nth_overflow _ _ (by rw [length_frostUpdate, hl, min_self]; exact le_of_not_lt hi)]
      · rw [finalState_frost_other s _ r c hrc]
    · rw [run_one_step_eq_mask s h hcol hl]
      exact le_refl _
  · rw [run_one_step_terminal s h]
    exact le_refl _

/-- **C7**: the driver loop steps while `current_timestep < len(Ts)`; once
`current_timestep = len(Ts)` the driver is terminal — every further
`run_one_step` call fails with the `AlreadyCompleted` error (the `IndexError`
of `self.Ts[self.current_timestep]`) and returns the state unchanged — while
below the bound a step with a nonempty active column (at `num_nodes = 0`
Python instead raises `IndexError` at `self.temp[x,y,0]`) and matching
mask/frost lengths succeeds and advances the timestep by one. -/
theorem C7_terminal_state (s : FCState) (hne : s.Ts ≠ []) :
    (s.current_timestep = s.Ts.length →
      run_one_step s = .err .alreadyCompleted s) ∧
    (∀ h : s.current_timestep < s.Ts.length,
      (initialOverwrite s).temp 500 400 ≠ [] →
      (steppedCol s (stepForcing s h)).length = (s.frostcrackA 500 400).length →
      ∃ s', run_one_step s = .ok s' ∧ s'.current_timestep = s.current_timestep + 1) := by
  constructor
  · intro heq
    have h0 : s.current_timestep ≠ 0 := by
      rw [heq]
      intro hlen
      exact hne (List.eq_nil_of_length_eq_zero hlen)
    rw [run_one_step_terminal s (by rw [heq]; exact lt_irrefl _),
      initialOverwrite_of_ne_zero s h0]
  · intro h hcol hl
    exact ⟨finalState s (stepForcing s h), run_one_step_eq_ok s h hcol hl, rfl⟩

/-- Witness for C7: the exhausted state `exStateDone`
(`current_timestep = 2 = len(Ts)`) fails terminally with the state unchanged,
and the sub-bound state `exState` (nonempty active column, matching lengths)
steps to `.ok` with the timestep advanced. -/
theorem C7_terminal_state_witness :
    (exStateDone.Ts ≠ [] ∧
      exStateDone.current_timestep = exStateDone.Ts.length ∧
      run_one_step exStateDone = .err .alreadyCompleted exStateDone) ∧
    (exState.Ts ≠ [] ∧
      (initialOverwrite exState).temp 500 400 ≠ [] ∧
      ∃ s', run_one_step exState = .ok s' ∧
        s'.current_timestep = exState.current_timestep + 1) :=
  ⟨⟨by decide, rfl, (C7_terminal_state exStateDone (by decide)).1 rfl⟩,
    ⟨by decide, by decide,
      (C7_terminal_state exState (by decide)).2 (by decide) (by decide) (by decide)⟩⟩

/-- **C8**: every frost-index entry starts at zero at construction, and no
operation after construction (`run_one_step` — also iterated, as the driver
loop does — or either `calculate_*` method or `interp_Ts`) ever decreases
`frostcrackA[node][i]`. -/
theorem C8_frost_monotone :
    (∀ inp s, FROST_CRACK_2D_init inp = .ok s → ∀ r c i, nth (s.frostcrackA r c) i = 0) ∧
    (∀ s r c i, nth (s.frostcrackA r c) i ≤
      nth ((stateOf (run_one_step s)).frostcrackA r c) i) ∧
    (∀ s r c i, nth (s.frostcrackA r c) i ≤
      nth ((calculate_frost_cracking_depth_Anderson s).frostcrackA r c) i) ∧
    (∀ s r c i, nth (s.frostcrackA r c) i ≤
      nth ((calculate_frost_cracking_depth_Hales_Roering s).frostcrackA r c) i) ∧
    (∀ s r c i, nth (s.frostcrackA r c) i ≤ nth ((stateOf (interp_Ts s)).frostcrackA r c) i) ∧
    (∀ s r c i n, nth (s.frostcrackA r c) i ≤ nth ((stepN n s).frostcrackA r c) i) := by
  refine ⟨?_, run_one_step_frost_le, fun s r c i => le_refl _, fun s r c i => le_refl _,
    fun s r c i => le_refl _, ?_⟩
  · intro inp s hok r c i
    obtain ⟨-, -, -, -, -, rfl⟩ := init_ok_inv inp s hok
    exact nth_replicate inp.num_nodes i
  · intro s r c i n
    induction n generalizing s with
    | zero => exact le_refl _
    | succ m ih =>
      exact le_trans (run_one_step_frost_le s r c i) (ih (stateOf (run_one_step s)))

/-- Witness for C8: the freshly constructed state of `exInput` has a zero
frost index everywhere, e.g. at node `(1,1)`, sample 2. -/
theorem C8_frost_monotone_witness :
    FROST_CRACK_2D_init exInput = .ok (mkState exInput (dtForcingOf exInput)) ∧
    nth ((mkState exInput (dtForcingOf exInput)).frostcrackA 1 1) 2 = 0 := by
  have hok : FROST_CRACK_2D_init exInput = .ok (mkState exInput (dtForcingOf exInput)) := by
    with_unfolding_all rfl
  exact ⟨hok, C8_frost_monotone.1 exInput _ hok 1 1 2⟩

/-- **C9**: a step call mutates the temperature and Anderson frost-index
grids only at the hard-coded cell `(x, y) = (500, 400)` — every other node's
`temp` and `frostcrackA` columns are exactly unchanged (whether the call
returns or raises) — and the Hales–Roering grid `frostcrackHR` is unchanged
by every operation after construction (`run_one_step`, both `calculate_*`
stubs, and `interp_Ts`). -/
theorem C9_frame :
    (∀ s r c, ¬ (r = 500 ∧ c = 400) →
      (stateOf (run_one_step s)).temp r c = s.temp r c ∧
      (stateOf (run_one_step s)).frostcrackA r c = s.frostcrackA r c) ∧
    (∀ s, (stateOf (run_one_step s)).frostcrackHR = s.frostcrackHR) ∧
    (∀ s, calculate_frost_cracking_depth_Anderson s = s) ∧
    (∀ s, calculate_frost_cracking_depth_Hales_Roering s = s) ∧
    (∀ s, stateOf (interp_Ts s) = s) := by
  refine ⟨?_, ?_, fun s => rfl, fun s => rfl, fun s => rfl⟩
  · intro s r c hrc
    by_cases h : s.current_timestep < s.Ts.length
    · by_cases hcol : (initialOverwrite s).temp 500 400 = []
      · rw [run_one_step_eq_emptycol s h hcol]
        exact ⟨overwrittenTemp_other s r c hrc, rfl⟩
      by_cases hl : (steppedCol s (stepForcing s h)).length = (s.frostcrackA 500 400).length
      · rw [run_one_step_eq_ok s h hcol hl]
        exact ⟨finalState_temp_other s _ r c hrc, finalState_frost_other s _ r c hrc⟩
      · rw [run_one_step_eq_mask s h hcol hl]
        constructor
        · show updGrid (initialOverwrite s).temp 500 400 (steppedCol s (stepForcing s h))
            r c = s.temp r c
          rw [updGrid_other _ _ _ _ _ _ hrc]
          exact overwrittenTemp_other s r c hrc
        · rfl
    · rw [run_one_step_terminal s h]
      exact ⟨overwrittenTemp_other s r c hrc, rfl⟩
  · intro s
    by_cases h : s.current_timestep < s.Ts.length
    · by_cases hcol : (initialOverwrite s).temp 500 400 = []
      · rw [run_one_step_eq_emptycol s h hcol]
        rfl
      by_cases hl : (steppedCol s (stepForcing s h)).length = (s.frostcrackA 500 400).length
      · rw [run_one_step_eq_ok s h hcol hl]
        rfl
      · rw [run_one_step_eq_mask s h hcol hl]
        rfl
    · rw [run_one_step_terminal s h]
      rfl

/-- Witness for C9 at node `(0,0)` of `exState`. -/
theorem C9_frame_witness :
    ¬ ((0:ℕ) = 500 ∧ (0:ℕ) = 400) ∧
    (stateOf (run_one_step exState)).temp 0 0 = exState.temp 0 0 ∧
    (stateOf (run_one_step exState)).frostcrackA 0 0 = exState.frostcrackA 0 0 :=
  ⟨by decide, (C9_frame.1 exState 0 0 (by decide)).1, (C9_frame.1 exState 0 0 (by decide)).2⟩

/-- **C10**: on the first step only (`current_timestep == 0`) the active
node's whole temperature column is overwritten with
`mean(Ts_org) + geotherm * depth` before the diffusion update, so the
constructor's lapse-rate-corrected initial profile at the active node is
discarded and never used: the diffusion update is applied to the overwrite
profile (part 2), and replacing the active node's constructed column by any
other column gives the identical post-step active column (part 3). -/
theorem C10_first_step_overwrite :
    (∀ s, s.current_timestep = 0 →
      (initialOverwrite s).temp 500 400 =
        s.depth.map (fun d => mean s.Ts_org + s.geotherm * d)) ∧
    (∀ s s', run_one_step s = .ok s' → s.current_timestep = 0 →
      ∃ h : s.current_timestep < s.Ts.length,
        s'.temp 500 400 = stepColumn s.thermal_diffusivity s.dz s.timestep_duration_is
          (stepForcing s h) (s.depth.map (fun d => mean s.Ts_org + s.geotherm * d))) ∧
    (∀ s col, s.current_timestep = 0 →
      (stateOf (run_one_step (withActiveColumn s col))).temp 500 400 =
        (stateOf (run_one_step s)).temp 500 400) := by
  refine ⟨fun s h0 => overwrittenTemp_active_zero s h0, ?_, ?_⟩
  · intro s s' hok h0
    obtain ⟨h, hempt, hl, rfl⟩ := run_one_step_ok_inv s s' hok
    refine ⟨h, ?_⟩
    rw [finalState_temp_active, steppedCol,
      show (initialOverwrite s).temp 500 400 =
          s.depth.map (fun d => mean s.Ts_org + s.geotherm * d) from
        overwrittenTemp_active_zero s h0]
  · intro s col h0
    by_cases h : s.current_timestep < s.Ts.length
    · have h2 : (withActiveColumn s col).current_timestep <
        (withActiveColumn s col).Ts.length := h
      have hcol : (initialOverwrite (withActiveColumn s col)).temp 500 400 =
          (initialOverwrite s).temp 500 400 :=
        (overwrittenTemp_active_zero (withActiveColumn s col) h0).trans
          (overwrittenTemp_active_zero s h0).symm
      have hst : steppedCol (withActiveColumn s col)
          (stepForcing (withActiveColumn s col) h2) =
          steppedCol s (stepForcing s h) := by
        show stepColumn s.thermal_diffusivity s.dz s.timestep_duration_is (stepForcing s h)
          ((initialOverwrite (withActiveColumn s col)).temp 500 400) =
          stepColumn s.thermal_diffusivity s.dz s.timestep_duration_is (stepForcing s h)
          ((initialOverwrite s).temp 500 400)
        rw [hcol]
      by_cases hempt : (initialOverwrite s).temp 500 400 = []
      · have hempt2 : (initialOverwrite (withActiveColumn s col)).temp 500 400 = [] := by
          rw [hcol]; exact hempt
        rw [run_one_step_eq_emptycol _ h2 hempt2, run_one_step_eq_emptycol s h hempt]
        exact hcol
      have hempt2 : ¬ (initialOverwrite (withActiveColumn s col)).temp 500 400 = [] := by
        rw [hcol]; exact hempt
      by_cases hl : (steppedCol s (stepForcing s h)).length = (s.frostcrackA 500 400).length
      · have hl2 : (steppedCol (withActiveColumn s col)
            (stepForcing (withActiveColumn s col) h2)).length =
            ((withActiveColumn s col).frostcrackA 500 400).length := by
          rw [hst]; exact hl
        rw [run_one_step_eq_ok _ h2 hempt2 hl2, run_one_step_eq_ok s h hempt hl]
        show (finalState (withActiveColumn s col) _).temp 500 400 =
          (finalState s _).temp 500 400
        rw [finalState_temp_active, finalState_temp_active, hst]
      · have hl2 : ¬ (steppedCol (withActiveColumn s col)
            (stepForcing (withActiveColumn s col) h2)).length =
            ((withActiveColumn s col).frostcrackA 500 400).length := by
          rw [hst]; exact hl
        rw [run_one_step_eq_mask _ h2 hempt2 hl2, run_one_step_eq_mask s h hempt hl]
        show (advancedState (withActiveColumn s col) _).temp 500 400 =
          (advancedState s _).temp 500 400
        rw [advancedState_temp_active, advancedState_temp_active, hst]
    · have h2 : ¬ (withActiveColumn s col).current_timestep <
        (withActiveColumn s col).Ts.length := h
      rw [run_one_step_terminal _ h2, run_one_step_terminal s h]
      exact (overwrittenTemp_active_zero (withActiveColumn s col) h0).trans
        (overwrittenTemp_active_zero s h0).symm

/-- Witness for C10 at `exStateFirst` (timestep 0, geotherm `1/10`). -/
theorem C10_first_step_overwrite_witness :
    exStateFirst.current_timestep = 0 ∧
    (initialOverwrite exStateFirst).temp 500 400 =
      exStateFirst.depth.map (fun d => mean exStateFirst.Ts_org + exStateFirst.geotherm * d) :=
  ⟨rfl, C10_first_step_overwrite.1 exStateFirst rfl⟩
